import Mathlib

/-!
Verification of the forex-analysis-pro core pipeline against its
natural-language specification.

The Python sources under `src/backend/` are shallowly embedded here:
prices, confidences and scores are rationals (`ℚ`), timestamps are seconds
(`ℕ`, with second 0 falling on a Monday 00:00 UTC so that Python's
`datetime.weekday()` with Monday = 0 becomes `t / 86400 % 7`), Python
dictionaries with optional keys become structures with `Option` fields,
and code that can raise returns `Except`.  Log messages are kept as short
constant strings (the interpolated numbers in the Python f-strings play no
role in any behaviour: only the *number* of warnings influences the
confidence score).
-/

namespace DataValidator

/-- Embeds `ForexDataValidator.MAX_PRICE_CHANGE` together with
`_get_price_change_threshold`: the maximum allowed fractional price change
as a function of the elapsed minutes. -/
def getPriceChangeThreshold (minutes : ℚ) : ℚ :=
  if minutes ≤ 1 then 1/200        -- '1m': 0.005
  else if minutes ≤ 5 then 3/200   -- '5m': 0.015
  else if minutes ≤ 15 then 1/40   -- '15m': 0.025
  else if minutes ≤ 60 then 1/20   -- '1h': 0.05
  else 3/20                        -- '1d': 0.15

/-- Embeds `ForexDataValidator.PRICE_RANGES` (min, max per pair; the
`typical_spread` entry is never read by the validator). -/
def priceRanges (pair : String) : Option (ℚ × ℚ) :=
  if pair = "EURUSD" then some (4/5, 3/2)
  else if pair = "GBPUSD" then some (1, 2)
  else if pair = "USDJPY" then some (80, 160)
  else if pair = "USDCHF" then some (7/10, 6/5)
  else if pair = "AUDUSD" then some (1/2, 11/10)
  else if pair = "USDCAD" then some (1, 8/5)
  else if pair = "NZDUSD" then some (2/5, 9/10)
  else if pair = "EURGBP" then some (7/10, 1)
  else none

/-- Embeds `ForexDataValidator.MARKET_SESSIONS` (start hour, end hour, UTC). -/
def marketSessions : List (ℕ × ℕ) := [(21, 6), (23, 8), (7, 16), (12, 21)]

/-- Python's `timestamp.weekday()` (Monday = 0) for a timestamp in seconds
whose epoch is aligned to a Monday. -/
def weekdayOf (t : ℕ) : ℕ := t / 86400 % 7

/-- Python's `timestamp.hour` for a timestamp in seconds. -/
def hourOf (t : ℕ) : ℕ := t % 86400 / 3600

/-- The trading-session loop of `_validate_market_hours`: a session whose
start is after its end crosses midnight. -/
def inAnySession (hour : ℕ) : Bool :=
  marketSessions.any fun s =>
    if s.1 > s.2 then decide (hour ≥ s.1) || decide (hour ≤ s.2)
    else decide (s.1 ≤ hour) && decide (hour ≤ s.2)

/-- Number of decimal places of `str(price)` in `_validate_price_format`,
modelled for exactly-representable decimals: the least `n ≤ 17` such that
`q * 10 ^ n` is an integer (17, the maximal float `repr` length, when no
such `n` exists). -/
def decimalPlaces (q : ℚ) : ℕ :=
  ((List.range 18).find? fun n => (q * 10 ^ n).den = 1).getD 17

/-- The entries of the Python `validation_checks` nested dict, flattened:
`format.format` is `format_ok`, `format.precision` is `precision_ok`,
`range.*`, `market_hours.*`, `price_change.*` and the numeric extras that
no later code reads are dropped, `timestamp.future/stale` are
`future_ok`/`stale_ok`, `freshness.*` keeps its names. -/
structure ValidationChecks where
  format_ok : Bool
  precision_ok : Bool
  min_range : Bool
  max_range : Bool
  within_range : Bool
  weekend : Bool
  trading_session : Bool
  reasonable_change : Bool
  extreme_change : Bool
  future_ok : Bool
  stale_ok : Bool
  fresh : Bool
  severely_stale : Bool
  deriving DecidableEq, Repr

/-- All-true checks: the Python dict starts empty and every key is written
before it is read, so the initial values are never observed. -/
def initChecks : ValidationChecks :=
  ⟨true, true, true, true, true, true, true, true, true, true, true, true, false⟩

/-- Embeds the `validation_result` dict built by `validate_price_data`. -/
structure ValidationResult where
  is_valid : Bool
  price : ℚ
  pair : String
  timestamp : ℕ
  warnings : List String
  errors : List String
  confidence_score : ℤ
  checks : ValidationChecks
  deriving DecidableEq, Repr

/-- The dict as initialised at the top of `validate_price_data`. -/
def initResult (pair : String) (price : ℚ) (t : ℕ) : ValidationResult :=
  ⟨true, price, pair, t, [], [], 100, initChecks⟩

/-- Embeds `_validate_price_format` (the `isinstance` test always passes for
a rational price; `price <= 0` is the reachable failure). -/
def validatePriceFormat (pair : String) (price : ℚ) (r : ValidationResult) :
    ValidationResult :=
  let r1 :=
    if price ≤ 0 then
      { r with errors := r.errors ++ ["Invalid price format"],
               is_valid := false,
               checks := { r.checks with format_ok := false } }
    else
      { r with checks := { r.checks with format_ok := true } }
  let dp := decimalPlaces price
  if pair.endsWith "JPY" then
    if dp > 3 then
      { r1 with warnings := r1.warnings ++ ["Unusual precision for JPY pair"],
                checks := { r1.checks with precision_ok := false } }
    else { r1 with checks := { r1.checks with precision_ok := true } }
  else
    if dp > 5 then
      { r1 with warnings := r1.warnings ++ ["Unusual precision"],
                checks := { r1.checks with precision_ok := false } }
    else { r1 with checks := { r1.checks with precision_ok := true } }

/-- Embeds `_validate_price_range`. -/
def validatePriceRange (pair : String) (price : ℚ) (r : ValidationResult) :
    ValidationResult :=
  match priceRanges pair with
  | some (lo, hi) =>
    let r1 :=
      if price < lo then
        { r with errors := r.errors ++ ["Price below minimum expected range"],
                 is_valid := false,
                 checks := { r.checks with min_range := false } }
      else { r with checks := { r.checks with min_range := true } }
    let r2 :=
      if price > hi then
        { r1 with errors := r1.errors ++ ["Price above maximum expected range"],
                  is_valid := false,
                  checks := { r1.checks with max_range := false } }
      else { r1 with checks := { r1.checks with max_range := true } }
    { r2 with checks :=
        { r2.checks with within_range := r2.checks.min_range && r2.checks.max_range } }
  | none =>
    { r with warnings := r.warnings ++ ["No price range validation available"],
             checks := { r.checks with within_range := true } }

/-- Embeds `_validate_market_hours`. -/
def validateMarketHours (t : ℕ) (r : ValidationResult) : ValidationResult :=
  let wd := weekdayOf t
  let r1 :=
    if wd ≥ 5 then
      if wd = 5 ∧ hourOf t ≥ 21 then
        { r with checks := { r.checks with weekend := true } }
      else if wd = 6 ∧ hourOf t < 21 then
        { r with checks := { r.checks with weekend := true } }
      else
        { r with warnings := r.warnings ++ ["Price during weekend market hours"],
                 checks := { r.checks with weekend := false } }
    else { r with checks := { r.checks with weekend := true } }
  let sess := inAnySession (hourOf t)
  if sess then
    { r1 with checks := { r1.checks with trading_session := true } }
  else
    { r1 with warnings := r1.warnings ++ ["Price outside major trading sessions"],
              checks := { r1.checks with trading_session := false } }

/-- Embeds `_validate_price_change`.  `lastValid` is
`self.last_valid_prices[pair]` when present.  A stored last price of `0`
makes the Python `abs(price - last_price) / last_price` raise
`ZeroDivisionError`, embedded as `Except.error` carrying the result dict as
mutated so far. -/
def validatePriceChange (lastValid : Option (ℚ × ℕ)) (price : ℚ) (t : ℕ)
    (r : ValidationResult) : Except ValidationResult ValidationResult :=
  match lastValid with
  | some (lastPrice, lastT) =>
    if lastPrice = 0 then .error r
    else
      let minutes : ℚ := ((t : ℚ) - (lastT : ℚ)) / 60
      let pc := |price - lastPrice| / lastPrice
      let thr := getPriceChangeThreshold minutes
      let r1 :=
        if pc > thr then
          if pc > thr * 2 then
            { r with errors := r.errors ++ ["Extreme price change"],
                     is_valid := false,
                     checks := { r.checks with extreme_change := false } }
          else
            { r with warnings := r.warnings ++ ["Significant price change"],
                     checks := { r.checks with extreme_change := true } }
        else { r with checks := { r.checks with extreme_change := true } }
      .ok { r1 with checks := { r1.checks with reasonable_change := decide (pc ≤ thr) } }
  | none =>
    .ok { r with checks :=
            { r.checks with reasonable_change := true, extreme_change := true } }

/-- Embeds `_validate_timestamp` (`now` is `datetime.utcnow()` in seconds). -/
def validateTimestampSanity (t now : ℕ) (r : ValidationResult) : ValidationResult :=
  let r1 :=
    if (t : ℤ) > (now : ℤ) + 300 then
      { r with errors := r.errors ++ ["Timestamp is in the future"],
               is_valid := false,
               checks := { r.checks with future_ok := false } }
    else { r with checks := { r.checks with future_ok := true } }
  if (t : ℤ) < (now : ℤ) - 86400 then
    { r1 with warnings := r1.warnings ++ ["Timestamp is older than 24 hours"],
              checks := { r1.checks with stale_ok := false } }
  else { r1 with checks := { r1.checks with stale_ok := true } }

/-- Embeds `_validate_data_freshness`. -/
def validateDataFreshness (t now : ℕ) (r : ValidationResult) : ValidationResult :=
  let age : ℤ := (now : ℤ) - (t : ℤ)
  let r1 :=
    if age > 300 then
      { r with warnings := r.warnings ++ ["Data is minutes old"],
               checks := { r.checks with fresh := false } }
    else { r with checks := { r.checks with fresh := true } }
  if age > 3600 then
    { r1 with errors := r1.errors ++ ["Data is severely stale"],
              is_valid := false,
              checks := { r1.checks with severely_stale := true } }
  else { r1 with checks := { r1.checks with severely_stale := false } }

/-- Embeds `_calculate_confidence_score`; every `'key' in checks` guard is
true because all six checks have run before the score is computed. -/
def calculateConfidenceScore (r : ValidationResult) : ValidationResult :=
  let score : ℤ := 100
  let score := score - (if r.is_valid then 0 else 50)
  let score := score - 10 * (r.warnings.length : ℤ)
  let score := score - (if r.checks.format_ok then 0 else 30)
  let score := score - (if r.checks.within_range then 0 else 25)
  let score := score - (if r.checks.reasonable_change then 0 else 15)
  let score := score - (if r.checks.extreme_change then 0 else 35)
  let score := score - (if r.checks.fresh then 0 else 10)
  let score := score - (if r.checks.severely_stale then 30 else 0)
  let score := score - (if r.checks.trading_session then 0 else 5)
  let score := score - (if r.checks.weekend then 0 else 10)
  { r with confidence_score := max 0 score }

/-- The `self.last_valid_prices` map: pair to (price, timestamp). -/
def LastValidPrices := String → Option (ℚ × ℕ)

/-- The body of the `try` block of `validate_price_data`: the six checks,
the score, and the conditional store of the accepted quote.  An
`Except.error` carries the partially-built result at the point where the
Python code raised. -/
def validateChecksCore (st : LastValidPrices) (pair : String) (price : ℚ)
    (topt : Option ℕ) (now : ℕ) :
    Except ValidationResult (ValidationResult × LastValidPrices) :=
  let t := topt.getD now
  let r1 := validatePriceFormat pair price (initResult pair price t)
  let r2 := validatePriceRange pair price r1
  let r3 := validateMarketHours t r2
  match validatePriceChange (st pair) price t r3 with
  | .error rp => .error rp
  | .ok r4 =>
    let r5 := validateTimestampSanity t now r4
    let r6 := validateDataFreshness t now r5
    let r7 := calculateConfidenceScore r6
    let st' : LastValidPrices :=
      if r7.is_valid && decide (r7.confidence_score ≥ 70) then
        fun p => if p = pair then some (price, t) else st p
      else st
    .ok (r7, st')

/-- Embeds `validate_price_data`: the `except` clause turns any internal
exception into `is_valid = false`, an appended error and confidence 0,
leaving `last_valid_prices` untouched. -/
def validatePriceData (st : LastValidPrices) (pair : String) (price : ℚ)
    (topt : Option ℕ) (now : ℕ) : ValidationResult × LastValidPrices :=
  match validateChecksCore st pair price topt now with
  | .ok rs => rs
  | .error rp =>
    ({ rp with is_valid := false,
               errors := rp.errors ++ ["Validation exception"],
               confidence_score := 0 }, st)

end DataValidator

namespace DataFetcher

/-- Embeds the `base_prices` table shared by `_get_fallback_price` and
`_generate_realistic_historical_data` (values as exact decimals). -/
def basePrices (pair : String) : Option ℚ :=
  if pair = "EURUSD" then some (219/200)        -- 1.0950
  else if pair = "GBPUSD" then some (51/40)     -- 1.2750
  else if pair = "USDJPY" then some (297/2)     -- 148.50
  else if pair = "USDCHF" then some (177/200)   -- 0.8850
  else if pair = "AUDUSD" then some (27/40)     -- 0.6750
  else if pair = "USDCAD" then some (269/200)   -- 1.3450
  else if pair = "NZDUSD" then some (123/200)   -- 0.6150
  else if pair = "EURGBP" then some (429/500)   -- 0.8580
  else none

/-- Deterministic digest of a string, standing in for the
`hashlib.md5(...).hexdigest()[:8]` digest of `_get_fallback_price` (the md5
library primitive is a fixed pure function of its input string; any
concrete such function preserves every property the code relies on: the
seed depends on nothing but the digested string). -/
def strDigest (s : String) : ℕ :=
  s.data.foldl (fun a c => a * 131 + c.toNat + 7) 5381

/-- The seed of `_get_fallback_price`: a digest of the string
`f"{pair}{int(time.time() / 60)}"`, i.e. of the pair concatenated with the
minute bucket. -/
def fallbackSeed (pair : String) (bucket : ℕ) : ℕ :=
  strDigest (pair ++ toString bucket)

/-- The first draw of Python's seeded `random.random()`, standing in for
the Mersenne-Twister stream: a value in `[0, 1]` that is a fixed function
of the seed. -/
def unitFromSeed (seed : ℕ) : ℚ :=
  ((seed * 48271 % 1000001 : ℕ) : ℚ) / 1000000

/-- Embeds `_get_fallback_price` at time `tSec` (seconds):
`random.uniform(-0.005, 0.005) = -0.005 + 0.01 * random()` applied to the
base price (1.0 for a pair missing from the table). -/
def fallbackPrice (pair : String) (tSec : ℕ) : ℚ :=
  let bucket := tSec / 60
  let seed := fallbackSeed pair bucket
  let variation := -(1/200) + (1/100) * unitFromSeed seed
  (basePrices pair).getD 1 * (1 + variation)

/-- Environment of one `get_current_price` call: the unexpired cache entry
for `current_price_{pair}` if any, the asset class, and the price each
external provider would deliver (`none` covers every way a provider fails
to produce a price: network error, timeout, missing symbol, denied rate
limit, or missing API key). -/
structure FetchEnv where
  cached : Option ℚ
  isCrypto : Bool
  coingecko : Option ℚ
  binance : Option ℚ
  freeApis : Option ℚ
  yahoo : Option ℚ
  alphaVantage : Option ℚ
  nowSec : ℕ
  deriving Repr

/-- The acceptance test applied by `get_current_price` to the cached entry
and by `_validate_and_cache_price` to every fetched price:
`is_valid` and `confidence_score >= 70`. -/
def acceptPrice (st : DataValidator.LastValidPrices) (pair : String) (price : ℚ)
    (now : ℕ) : Bool :=
  let r := (DataValidator.validatePriceData st pair price none now).1
  r.is_valid && decide (r.confidence_score ≥ 70)

/-- Embeds `_validate_and_cache_price`: `none` in, `none` out; otherwise
the price paired with its source label when accepted (the label is the
`source` argument the Python code passes for logging; it is carried here so
the origin of the returned price is observable). -/
def validateAndCachePrice (st : DataValidator.LastValidPrices) (pair : String)
    (price : Option ℚ) (src : String) (now : ℕ) : Option (ℚ × String) :=
  match price with
  | none => none
  | some p => if acceptPrice st pair p now then some (p, src) else none

/-- The provider chain of `get_current_price`: CoinGecko, Binance, Yahoo
for crypto pairs; the free APIs, Yahoo, Alpha Vantage for forex pairs. -/
def providerAttempts (env : FetchEnv) : List (Option ℚ × String) :=
  if env.isCrypto then
    [(env.coingecko, "CoinGecko"), (env.binance, "Binance"),
     (env.yahoo, "Yahoo Finance")]
  else
    [(env.freeApis, "Free API"), (env.yahoo, "Yahoo Finance"),
     (env.alphaVantage, "Alpha Vantage")]

/-- The `Method 1..3` cascade: each provider's price goes through
`_validate_and_cache_price` and the first accepted one is returned.
`last_valid_prices` is unchanged along a rejecting cascade (the validator
stores a quote exactly when it is accepted, and acceptance returns). -/
def firstValidated (st : DataValidator.LastValidPrices) (pair : String) (now : ℕ) :
    List (Option ℚ × String) → Option (ℚ × String)
  | [] => none
  | a :: rest =>
    match validateAndCachePrice st pair a.1 a.2 now with
    | some r => some r
    | none => firstValidated st pair now rest

/-- Embeds `get_current_price` below the cache check: the provider cascade,
then `Method 4`, the fallback price through the same validation; `none` is
the Python `return None` (all sources failed). -/
def getCurrentPriceUncached (st : DataValidator.LastValidPrices) (env : FetchEnv)
    (pair : String) : Option (ℚ × String) :=
  match firstValidated st pair env.nowSec (providerAttempts env) with
  | some r => some r
  | none =>
    validateAndCachePrice st pair (some (fallbackPrice pair env.nowSec))
      "Fallback" env.nowSec

/-- Embeds `get_current_price`: an unexpired cached price is revalidated
and returned on acceptance, otherwise (cache miss, expired or rejected
entry) the fetch cascade runs.  The outer `try/except` means no exception
escapes: the function is total with `none` the only failure. -/
def getCurrentPrice (st : DataValidator.LastValidPrices) (env : FetchEnv)
    (pair : String) : Option (ℚ × String) :=
  match env.cached with
  | some c =>
    if acceptPrice st pair c env.nowSec then some (c, "cache")
    else getCurrentPriceUncached st env pair
  | none => getCurrentPriceUncached st env pair

/-- Embeds the `period_map` of `_generate_realistic_historical_data`
(number of data points per period, default 100). -/
def periodMap (period : String) : ℕ :=
  if period = "1d" then 24
  else if period = "5d" then 120
  else if period = "1mo" then 100
  else if period = "3mo" then 200
  else if period = "6mo" then 300
  else if period = "1y" then 400
  else if period = "2y" then 500
  else 100

/-- Embeds the `interval_map` (hours per candle, default 1). -/
def intervalHours (interval : String) : ℚ :=
  if interval = "1m" then 1/60
  else if interval = "5m" then 1/12
  else if interval = "15m" then 1/4
  else if interval = "30m" then 1/2
  else if interval = "1h" then 1
  else if interval = "2h" then 2
  else if interval = "4h" then 4
  else if interval = "1d" then 24
  else 1

/-- `points_needed = min(int(total_points / hours), 100)`: the synthetic
series is capped at 100 points. -/
def pointsNeeded (period interval : String) : ℕ :=
  min (Int.toNat ⌊(periodMap period : ℚ) / intervalHours interval⌋) 100

/-- One OHLCV row of the generated DataFrame. -/
structure Candle where
  Open : ℚ
  High : ℚ
  Low : ℚ
  Close : ℚ
  Volume : ℤ
  deriving DecidableEq, Repr

/-- Bounded pseudo-noise for one step of the synthetic walk, standing in
for the seeded `np.sin`/`np.random.randn` mixture of
`_generate_realistic_historical_data` (transcendental functions and the
NumPy generator have no exact rational form; what matters downstream —
point count, determinism in `(pair, period, interval)`, boundedness — is
preserved). -/
def synthNoise (seed i : ℕ) : ℚ :=
  ((((seed * 9301 + i * 49297) % 2001 : ℕ) : ℚ) - 1000) / 2000000

/-- The close-price walk: `current_price *= (1 + price_change)`. -/
def synthCloses (seed : ℕ) (base : ℚ) : ℕ → List ℚ
  | 0 => []
  | n + 1 =>
    let prev := synthCloses seed base n
    let cur := prev.headD base
    (cur * (1 + synthNoise seed n)) :: prev

/-- Embeds `_generate_realistic_historical_data`: seeded from
`hash(pair) % 10000`, walking from the base price, emitting OHLCV rows
with a 2-pip spread around the close (the sub-spread jitter of
open/high/low is fixed at the spread bound, which keeps the OHLC ordering
invariant the code enforces with `max`/`min`). -/
def genHistData (pair period interval : String) : List Candle :=
  let n := pointsNeeded period interval
  let base := (basePrices pair).getD 1
  let seed := strDigest pair % 10000
  ((synthCloses seed base n).reverse).map fun p =>
    let spread := p * (1/5000)
    { Open := p, High := p + spread, Low := p - spread, Close := p,
      Volume := 1000000 }

/-- The acquisition steps `get_historical_data` can take, in the order the
call performs them. -/
inductive HistStep where
  | cacheHit
  | synthTried
  | yahooTried
  | alphaTried
  deriving DecidableEq, Repr

/-- Environment of one `get_historical_data` call: the unexpired cache
entry if any, whether the synthetic generator succeeds (its `except`
branch returns an empty frame), the `_check_rate_limit()` answer, whether
an Alpha Vantage key is configured, and what each provider would return. -/
structure HistEnv where
  cached : Option (List Candle)
  synthOk : Bool
  rateOk : Bool
  hasAlphaKey : Bool
  yahooData : Option (List Candle)
  alphaData : Option (List Candle)
  deriving Repr

/-- A provider result is usable when it is `some` and non-empty
(`data is not None and not data.empty`). -/
def usable (d : Option (List Candle)) : Option (List Candle) :=
  match d with
  | some l => if l = [] then none else some l
  | none => none

/-- Embeds `get_historical_data`, returning the series (or `none`) together
with the trace of acquisition steps actually performed: cache first, then
the synthetic generator as the primary source, and the real providers
(Yahoo Finance, then Alpha Vantage, each behind the rate limit and the
Alpha Vantage key) only when the generator produced nothing. -/
def getHistoricalData (env : HistEnv) (pair period interval : String) :
    Option (List Candle) × List HistStep :=
  match env.cached with
  | some s => (some s, [HistStep.cacheHit])
  | none =>
    let demo := if env.synthOk then genHistData pair period interval else []
    if demo = [] then
      let yahooSteps := if env.rateOk then [HistStep.yahooTried] else []
      match (if env.rateOk then usable env.yahooData else none) with
      | some d => (some d, HistStep.synthTried :: yahooSteps)
      | none =>
        let alphaSteps :=
          if env.hasAlphaKey && env.rateOk then [HistStep.alphaTried] else []
        match (if env.hasAlphaKey && env.rateOk then usable env.alphaData else none) with
        | some d => (some d, HistStep.synthTried :: yahooSteps ++ alphaSteps)
        | none => (none, HistStep.synthTried :: yahooSteps ++ alphaSteps)
    else
      (some demo, [HistStep.synthTried])

end DataFetcher

namespace RateLimiter

/-- Embeds the `APIUsageStats` dataclass. -/
structure APIUsageStats where
  total_requests : ℕ
  successful_requests : ℕ
  failed_requests : ℕ
  rate_limited_requests : ℕ
  last_request_time : ℚ
  hourly_count : ℕ
  daily_count : ℕ
  last_reset : ℚ
  deriving DecidableEq, Repr

/-- Fresh stats with `last_reset = time.time()`. -/
def freshStats (now : ℚ) : APIUsageStats := ⟨0, 0, 0, 0, 0, 0, 0, now⟩

/-- Embeds `self.rate_limits` together with the `.get(api_name, 100)`
default used by `can_make_request`. -/
def rateLimitFor (api : String) : ℕ :=
  if api = "yahoo_finance" then 100
  else if api = "alpha_vantage" then 20
  else if api = "exchangerate_api" then 50
  else if api = "exchangerate_host" then 500
  else if api = "fawaz_currency" then 1000
  else 100

/-- Mutable state of the `RateLimiter` instance. -/
structure RateLimiterSt where
  api_stats : String → Option APIUsageStats
  global_stats : APIUsageStats

/-- Embeds `get_or_create_stats`. -/
def getOrCreateStats (st : RateLimiterSt) (api : String) (now : ℚ) : APIUsageStats :=
  (st.api_stats api).getD (freshStats now)

/-- Embeds `reset_counters_if_needed` (the daily reset compares against the
`last_reset` already advanced by the hourly reset, exactly as the Python
does). -/
def resetCountersIfNeeded (s : APIUsageStats) (now : ℚ) : APIUsageStats :=
  let s1 :=
    if now - s.last_reset ≥ 3600 then
      { s with hourly_count := 0, last_reset := now }
    else s
  if now - s1.last_reset ≥ 86400 then { s1 with daily_count := 0 } else s1

/-- Embeds `can_make_request`: global daily and hourly quotas, the per-API
hourly quota, and the Alpha Vantage daily quota (the
`rate_limited_requests` increments are observability only and do not feed
back into the decision). -/
def canMakeRequest (st : RateLimiterSt) (api : String) (now : ℚ) : Bool :=
  let stats := resetCountersIfNeeded (getOrCreateStats st api now) now
  if st.global_stats.daily_count ≥ 5000 then false
  else if st.global_stats.hourly_count ≥ 300 then false
  else if stats.hourly_count ≥ rateLimitFor api then false
  else if api = "alpha_vantage" ∧ stats.daily_count ≥ 20 then false
  else true

/-- Modelled from the spec: the emergency circuit-breaker of the rate
governor.  Its implementation (`DataFetcher.get_emergency_mode_status`,
`reset_emergency_mode` and the trip logic) is part of the repository but
absent from the sources provided — only its callers (`app.py`, the
emergency-mode utility and the tests) reference it.  Per spec §4.1 it is a
two-state machine, NORMAL or TRIPPED(until = now + cooldown); the state is
carried here next to the quota counters of the in-source `RateLimiter`. -/
structure Governor where
  limiter : RateLimiterSt
  emergencyUntil : Option ℚ

/-- Modelled from the spec: the emergency mode is TRIPPED while the
cooldown deadline has not elapsed. -/
def emergencyTripped (g : Governor) (now : ℚ) : Bool :=
  match g.emergencyUntil with
  | some u => decide (now < u)
  | none => false

/-- Modelled from the spec: `canRequest` — while tripped it returns false
for every provider; otherwise the quota logic of
`RateLimiter.can_make_request` decides. -/
def canRequest (g : Governor) (api : String) (now : ℚ) : Bool :=
  if emergencyTripped g now then false else canMakeRequest g.limiter api now

end RateLimiter

namespace TechnicalAnalysis

/-- Mean over the trailing `window` entries ending at index `i` of `l`
(`rolling(window=n, min_periods=1).mean()`: for `i + 1 < n` all `i + 1`
available entries are used). -/
def rollingMeanAt (l : List ℚ) (window i : ℕ) : ℚ :=
  let start := i + 1 - window
  let seg := (l.drop start).take (i + 1 - start)
  seg.sum / seg.length

/-- `data.diff()` without its leading NaN: consecutive differences. -/
def pairDiffs (l : List ℚ) : List ℚ :=
  match l with
  | [] => []
  | _ :: t => List.zipWith (fun b a => b - a) t l

/-- `delta.where(delta > 0, 0)`: the leading NaN of `diff()` also fails the
comparison and becomes 0. -/
def gainsList (l : List ℚ) : List ℚ :=
  match l with
  | [] => []
  | _ => 0 :: (pairDiffs l).map fun d => if d > 0 then d else 0

/-- `-delta.where(delta < 0, 0)`. -/
def lossesList (l : List ℚ) : List ℚ :=
  match l with
  | [] => []
  | _ => 0 :: (pairDiffs l).map fun d => if d < 0 then -d else 0

/-- Embeds `TechnicalAnalysis.calculate_rsi`.  `loss.replace(0, np.inf)`
turns a zero average loss into `+inf`, so the quotient `gain / loss`
becomes 0 (a finite float divided by `inf`); the embedding writes that
case out.  `fillna(50)` is a no-op here: gains and losses are nonnegative,
so `rs ≥ 0` and `1 + rs` never vanishes. -/
def calculateRsi (l : List ℚ) (period : ℕ) : List ℚ :=
  let gains := gainsList l
  let losses := lossesList l
  (List.range l.length).map fun i =>
    let g := rollingMeanAt gains period i
    let lo := rollingMeanAt losses period i
    let rs := if lo = 0 then 0 else g / lo
    100 - 100 / (1 + rs)

end TechnicalAnalysis

namespace SignalGenerator

/-- `self.weights['technical']`. -/
def wTechnical : ℚ := 3/5

/-- `self.weights['fundamental']`. -/
def wFundamental : ℚ := 2/5

/-- `self.weights['trend']`. -/
def wTrend : ℚ := 3/10

/-- `self.weights['momentum']`. -/
def wMomentum : ℚ := 1/5

/-- `self.weights['support_resistance']`. -/
def wSupportResistance : ℚ := 3/20

/-- `self.weights['pattern']`. -/
def wPattern : ℚ := 3/20

/-- Round-half-to-even, the semantics of Python's builtin `round`. -/
def roundHalfEven (q : ℚ) : ℤ :=
  let f := ⌊q⌋
  let r := q - f
  if r < 1/2 then f
  else if 1/2 < r then f + 1
  else if f % 2 = 0 then f else f + 1

/-- Python's `round(q, 1)`. -/
def round1 (q : ℚ) : ℚ := (roundHalfEven (q * 10) : ℚ) / 10

/-- `technical_analysis['trend_analysis']` when both the `direction` and
`confidence` keys are present (the code uses the entry only then). -/
structure TrendAnalysisIn where
  direction : String
  confidence : ℚ
  deriving Repr

/-- `momentum['macd']` (the `macd` and `signal` lines). -/
structure MacdIn where
  macd : ℚ
  signal : ℚ
  deriving Repr

/-- `technical_analysis['momentum_indicators']`. -/
structure MomentumIn where
  macd : Option MacdIn
  roc : Option ℚ
  deriving Repr

/-- `technical_analysis['oscillators']`: the RSI `value` and the
stochastic `k`. -/
structure OscillatorsIn where
  rsi : Option ℚ
  stochastic : Option ℚ
  deriving Repr

/-- `technical_analysis['support_resistance']`; each price is read with a
`.get` carrying a default, hence the `Option` fields. -/
structure SupportResistanceIn where
  current_price : Option ℚ
  nearest_resistance : Option ℚ
  nearest_support : Option ℚ
  deriving Repr

/-- The `technical_analysis` dict as read by `generate_signals` and
`_calculate_technical_signal`: `ma_signals` is
`moving_averages['signals']` (the per-MA bullish flags), and
`detected_patterns` carries the `signal` label of each detected pattern. -/
structure TechAnalysisIn where
  trend_analysis : Option TrendAnalysisIn
  momentum_indicators : Option MomentumIn
  oscillators : Option OscillatorsIn
  ma_signals : Option (List Bool)
  support_resistance : Option SupportResistanceIn
  detected_patterns : Option (List String)
  at_important_level : Bool
  important_levels : List ℚ
  deriving Repr

/-- The dict returned by `_calculate_technical_signal`. -/
structure TechSignal where
  direction : String
  strength : ℚ
  confidence : ℚ
  raw_signal : ℚ
  components : ℕ
  deriving DecidableEq, Repr

/-- `fundamental_analysis['summary']`, each key read through `.get`. -/
structure SummaryIn where
  overall_bias : Option String
  confidence : Option ℚ
  bullish_factors : Option ℚ
  bearish_factors : Option ℚ
  total_factors : Option ℚ
  deriving Repr

/-- The `fundamental_analysis` dict as read by
`_calculate_fundamental_signal`. -/
structure FundAnalysisIn where
  summary : Option SummaryIn
  deriving Repr

/-- The dict returned by `_calculate_fundamental_signal`. -/
structure FundSignal where
  direction : String
  strength : ℚ
  confidence : ℚ
  bias : String
  bullish : ℚ
  bearish : ℚ
  total : ℚ
  deriving DecidableEq, Repr

/-- The dict returned by `_combine_signals`; `note` is the key the
important-level override adds in `generate_signals`. -/
structure CombinedSignal where
  direction : String
  strength : ℚ
  confidence : ℚ
  raw_signal : ℚ
  agreement : Bool
  technical_weight : ℚ
  fundamental_weight : ℚ
  note : Option String
  deriving DecidableEq, Repr

/-- The `(signal, weight)` contributions accumulated by
`_calculate_technical_signal`, in the order the code appends them. -/
def techComponents (ta : TechAnalysisIn) : List (ℚ × ℚ) :=
  (match ta.trend_analysis with
   | some tr =>
     let sv : ℚ :=
       if tr.direction = "Bullish" then 1
       else if tr.direction = "Bearish" then -1 else 0
     [(sv * (tr.confidence / 100), wTrend)]
   | none => []) ++
  (match ta.momentum_indicators with
   | some m =>
     (match m.macd with
      | some md => [((if md.macd > md.signal then (7:ℚ)/10 else -(7/10)), wMomentum)]
      | none => []) ++
     (match m.roc with
      | some roc =>
        [((if roc > 1 then (3:ℚ)/5 else if roc < -1 then -(3/5) else 0),
          wMomentum * (1/2))]
      | none => [])
   | none => []) ++
  (match ta.oscillators with
   | some os =>
     (match os.rsi with
      | some v =>
        [((if v < 30 then (4:ℚ)/5 else if v > 70 then -(4/5) else (50 - v) / 50),
          wMomentum * (7/10))]
      | none => []) ++
     (match os.stochastic with
      | some k =>
        [((if k < 20 then (3:ℚ)/5 else if k > 80 then -(3/5) else 0),
          wMomentum * (3/10))]
      | none => [])
   | none => []) ++
  (match ta.ma_signals with
   | some ms =>
     if ms.length > 0 then
       [(((ms.countP id : ℚ) / (ms.length : ℚ)) * 2 - 1, wTrend * (1/2))]
     else []
   | none => []) ++
  (match ta.support_resistance with
   | some sr =>
     let cp := sr.current_price.getD 0
     let nr := sr.nearest_resistance.getD (cp * (101/100))
     let ns := sr.nearest_support.getD (cp * (99/100))
     let resistanceDistance := (nr - cp) / cp * 100
     let supportDistance := (cp - ns) / cp * 100
     [((if supportDistance < 1/10 then (7:ℚ)/10
        else if resistanceDistance < 1/10 then -(7/10) else 0),
       wSupportResistance)]
   | none => []) ++
  (match ta.detected_patterns with
   | some ps =>
     let patternSignal := ps.foldl
       (fun acc s =>
         if s = "Bullish" then acc + 1/2
         else if s = "Bearish" then acc - 1/2 else acc) (0:ℚ)
     [(max (-1) (min patternSignal 1), wPattern)]
   | none => [])

/-- In Python, a `support_resistance` entry whose current price is 0 (also
the `.get` default when the key is absent) raises `ZeroDivisionError` in
the distance computation; `_calculate_technical_signal` catches it and
returns `{'error': ...}`. -/
def techDivByZero (ta : TechAnalysisIn) : Bool :=
  match ta.support_resistance with
  | some sr => decide (sr.current_price.getD 0 = 0)
  | none => false

/-- The neutral signal: returned when no components are present, and also
standing for the `{'error': ...}` dict of the `except` branch — every
downstream read of that dict goes through `.get` defaults that produce
exactly these values (`HOLD`, strength 0, confidence 0). -/
def neutralTechSignal : TechSignal := ⟨"HOLD", 0, 0, 0, 0⟩

/-- Embeds `_calculate_technical_signal`. -/
def calcTechnicalSignal (ta : TechAnalysisIn) : TechSignal :=
  if techDivByZero ta then neutralTechSignal
  else
    let comps := techComponents ta
    if comps = [] then neutralTechSignal
    else
      let totalWeight := (comps.map Prod.snd).sum
      let weightedSignal := (comps.map fun c => c.1 * c.2).sum / totalWeight
      let confidence := min (|weightedSignal| * 100) 100
      let dir :=
        if weightedSignal > 1/10 then "BUY"
        else if weightedSignal < -(1/10) then "SELL"
        else "HOLD"
      ⟨dir, |weightedSignal|, round1 confidence, weightedSignal, comps.length⟩

/-- Embeds `_calculate_fundamental_signal`. -/
def calcFundamentalSignal (fa : FundAnalysisIn) : FundSignal :=
  match fa.summary with
  | some s =>
    let bias := s.overall_bias.getD "Neutral"
    let conf := s.confidence.getD 0
    let bull := s.bullish_factors.getD 0
    let bear := s.bearish_factors.getD 0
    let tot := s.total_factors.getD 0
    if bias = "Bullish" then ⟨"BUY", conf / 100, conf, bias, bull, bear, tot⟩
    else if bias = "Bearish" then ⟨"SELL", conf / 100, conf, bias, bull, bear, tot⟩
    else ⟨"HOLD", 0, conf, bias, bull, bear, tot⟩
  | none => ⟨"HOLD", 0, 0, "Unknown", 0, 0, 0⟩

/-- The `direction_values` mapping of `_combine_signals` (default 0). -/
def directionValue (d : String) : ℚ :=
  if d = "BUY" then 1 else if d = "SELL" then -1 else 0

/-- The variable `combined_confidence` of `_combine_signals` before the
`min(_, 100)` clip: weighted component confidences plus the agreement
bonus of 20 when both directions agree on a non-HOLD direction. -/
def combinedConfidencePreClip (t : TechSignal) (f : FundSignal) : ℚ :=
  t.confidence * wTechnical + f.confidence * wFundamental +
    (if t.direction = f.direction ∧ t.direction ≠ "HOLD" ∧ f.direction ≠ "HOLD"
     then 20 else 0)

/-- Embeds `_combine_signals`. -/
def combineSignals (t : TechSignal) (f : FundSignal) : CombinedSignal :=
  let techValue := directionValue t.direction * t.strength
  let fundValue := directionValue f.direction * f.strength
  let combinedValue := techValue * wTechnical + fundValue * wFundamental
  let finalDirection :=
    if combinedValue > 3/20 then "BUY"
    else if combinedValue < -(3/20) then "SELL"
    else "HOLD"
  { direction := finalDirection,
    strength := |combinedValue|,
    confidence := round1 (min (combinedConfidencePreClip t f) 100),
    raw_signal := combinedValue,
    agreement := decide (t.direction = f.direction),
    technical_weight := wTechnical,
    fundamental_weight := wFundamental,
    note := none }

/-- The fields of the `signal_output` dict of `generate_signals` that carry
the fused decision (the risk metrics, entry/exit levels, position sizing
and summary blocks, and the wall-clock `timestamp`/`valid_until` strings,
are computed from them and the raw price data and are read by no claim). -/
structure SignalOutput where
  pair : String
  signal : CombinedSignal
  technical_signal : TechSignal
  fundamental_signal : FundSignal
  deriving Repr

/-- Embeds `generate_signals`: component signals, fusion, and the
important-level override — `if at_important_level and important_levels:`
forces direction `SIGNIFICANT_LEVEL`, confidence 90 and adds the note
(Python list truthiness: the override also needs a non-empty level list). -/
def generateSignals (pair : String) (ta : TechAnalysisIn) (fa : FundAnalysisIn) :
    SignalOutput :=
  let t := calcTechnicalSignal ta
  let f := calcFundamentalSignal fa
  let c := combineSignals t f
  let c1 :=
    if ta.at_important_level && !(ta.important_levels.isEmpty) then
      { c with direction := "SIGNIFICANT_LEVEL", confidence := 90,
               note := some "Current price matches a historically important price action point." }
    else c
  { pair := pair, signal := c1, technical_signal := t, fundamental_signal := f }

end SignalGenerator

/-! Concrete states and environments used by the witnesses and
counterexamples below. -/

/-- A governor with fresh (entirely unused) quotas whose emergency mode is
tripped until second 100. -/
def trippedGovernor : RateLimiter.Governor :=
  ⟨⟨fun _ => none, RateLimiter.freshStats 0⟩, some 100⟩

/-- Technical-analysis input with every block absent, flagged as being at
an important level but carrying an empty level list. -/
def taCex : SignalGenerator.TechAnalysisIn :=
  ⟨none, none, none, none, none, none, true, []⟩

/-- Fundamental-analysis input with no summary. -/
def faCex : SignalGenerator.FundAnalysisIn := ⟨none⟩

/-- Input at an important level with one recorded level. -/
def taImportant : SignalGenerator.TechAnalysisIn :=
  ⟨none, none, none, none, none, none, true, [1]⟩

/-- A technical component signal with full confidence. -/
def c8tech : SignalGenerator.TechSignal := ⟨"BUY", 1, 100, 1, 1⟩

/-- A fundamental component signal agreeing in direction but with zero
confidence. -/
def c8fund : SignalGenerator.FundSignal := ⟨"BUY", 0, 0, "Bullish", 0, 0, 0⟩

/-- Agreeing components at confidences 80 and 60. -/
def c8techW : SignalGenerator.TechSignal := ⟨"BUY", 1, 80, 1, 1⟩

/-- The fundamental side of the witness pair. -/
def c8fundW : SignalGenerator.FundSignal := ⟨"BUY", 3/5, 60, "Bullish", 0, 0, 0⟩

/-- Validator memory holding an accepted EURUSD quote of 1.1000 at second
1000. -/
def stLastHigh : DataValidator.LastValidPrices :=
  fun p => if p = "EURUSD" then some (11/10, 1000) else none

/-- Validator memory holding a (corrupt) accepted EURUSD quote of 0, the
input on which the Python division raises. -/
def stZeroLast : DataValidator.LastValidPrices :=
  fun p => if p = "EURUSD" then some (0, 0) else none

/-- Validator memory holding an accepted EURUSD quote of 1.3000 at second
30 — far from the synthetic base price 1.0950. -/
def stFar : DataValidator.LastValidPrices :=
  fun p => if p = "EURUSD" then some (13/10, 30) else none

/-- A current-price environment in which the cache is empty and every
provider fails, at second 60. -/
def envAllFail : DataFetcher.FetchEnv := ⟨none, false, none, none, none, none, none, 60⟩

/-- A historical-data environment with an empty cache, a working synthetic
generator, a permissive rate limit and a Yahoo Finance provider that WOULD
deliver a (one-candle) series if asked. -/
def histEnvProviders : DataFetcher.HistEnv :=
  ⟨none, true, true, false, some [⟨1, 1, 1, 1, 1⟩], none⟩

/-- A historical-data environment with an empty cache and no provider
data. -/
def histEnvNoProviders : DataFetcher.HistEnv := ⟨none, true, true, false, none, none⟩

/-! Helper lemmas shared by the claim theorems. -/

namespace DataValidator

lemma getPriceChangeThreshold_pos (m : ℚ) : 0 < getPriceChangeThreshold m := by
  unfold getPriceChangeThreshold
  split_ifs <;> norm_num

lemma validateTimestampSanity_keeps_false (t now : ℕ) (r : ValidationResult)
    (h : r.is_valid = false) : (validateTimestampSanity t now r).is_valid = false := by
  unfold validateTimestampSanity
  split_ifs <;> simp [h]

lemma validateDataFreshness_keeps_false (t now : ℕ) (r : ValidationResult)
    (h : r.is_valid = false) : (validateDataFreshness t now r).is_valid = false := by
  simp only [validateDataFreshness]
  split_ifs <;> simp [h]

lemma calculateConfidenceScore_is_valid (r : ValidationResult) :
    (calculateConfidenceScore r).is_valid = r.is_valid := rfl

/-- An extreme price change (`pc > thr * 2`, with the threshold positive so
`pc > thr` as well) drives `_validate_price_change` into its hard-error
branch: the check returns normally with `is_valid` cleared. -/
lemma validatePriceChange_extreme (lp : ℚ) (lastT : ℕ) (price : ℚ) (t : ℕ)
    (r : ValidationResult) (hlp : lp ≠ 0)
    (h2 : |price - lp| / lp > getPriceChangeThreshold (((t : ℚ) - (lastT : ℚ)) / 60) * 2)
    (h1 : |price - lp| / lp > getPriceChangeThreshold (((t : ℚ) - (lastT : ℚ)) / 60)) :
    ∃ r1, validatePriceChange (some (lp, lastT)) price t r = .ok r1 ∧
      r1.is_valid = false := by
  simp only [validatePriceChange]
  rw [if_neg hlp]
  refine ⟨_, rfl, ?_⟩
  simp only []
  rw [if_pos h1, if_pos h2]

/-- When a last accepted quote is stored and the fractional change exceeds
twice the time-scaled threshold, `validate_price_data` returns an invalid
result: the hard error set by the price-change check survives the two
remaining checks and the score calculation. -/
lemma validatePriceData_extreme_invalid
    (st : LastValidPrices) (pair : String) (price : ℚ) (topt : Option ℕ) (now : ℕ)
    (lp : ℚ) (lastT : ℕ) (hst : st pair = some (lp, lastT)) (hlp : 0 < lp)
    (hpc : |price - lp| / lp >
      2 * getPriceChangeThreshold ((((topt.getD now : ℕ) : ℚ) - (lastT : ℚ)) / 60)) :
    (validatePriceData st pair price topt now).1.is_valid = false := by
  have hthr := getPriceChangeThreshold_pos ((((topt.getD now : ℕ) : ℚ) - (lastT : ℚ)) / 60)
  have h2 : |price - lp| / lp >
      getPriceChangeThreshold ((((topt.getD now : ℕ) : ℚ) - (lastT : ℚ)) / 60) * 2 := by
    linarith
  have h1 : |price - lp| / lp >
      getPriceChangeThreshold ((((topt.getD now : ℕ) : ℚ) - (lastT : ℚ)) / 60) := by
    linarith
  obtain ⟨r1, heq, hiv⟩ := validatePriceChange_extreme lp lastT price (topt.getD now)
    (validateMarketHours (topt.getD now) (validatePriceRange pair price
      (validatePriceFormat pair price (initResult pair price (topt.getD now)))))
    (ne_of_gt hlp) h2 h1
  simp only [validatePriceData, validateChecksCore]
  rw [hst, heq]
  exact validateDataFreshness_keeps_false _ _ _
    (validateTimestampSanity_keeps_false _ _ _ hiv)

end DataValidator

namespace DataFetcher

lemma unitFromSeed_nonneg (s : ℕ) : 0 ≤ unitFromSeed s := by
  unfold unitFromSeed
  positivity

lemma unitFromSeed_le_one (s : ℕ) : unitFromSeed s ≤ 1 := by
  unfold unitFromSeed
  rw [div_le_one (by norm_num)]
  have h : s * 48271 % 1000001 < 1000001 := Nat.mod_lt _ (by norm_num)
  have h2 : s * 48271 % 1000001 ≤ 1000000 := by omega
  exact_mod_cast h2

/-- The fallback price stays within ±0.5% of the configured base price. -/
lemma fallbackPrice_bounds (pair : String) (t : ℕ) (b : ℚ)
    (h : basePrices pair = some b) (hb : 0 ≤ b) :
    b * (199/200) ≤ fallbackPrice pair t ∧ fallbackPrice pair t ≤ b * (201/200) := by
  unfold fallbackPrice
  rw [h]
  simp only [Option.getD]
  have h0 := unitFromSeed_nonneg (fallbackSeed pair (t / 60))
  have h1 := unitFromSeed_le_one (fallbackSeed pair (t / 60))
  constructor <;> nlinarith

/-- With an empty cache and every provider failing, `get_current_price`
reaches `Method 4`: the validated fallback, `none` otherwise. -/
lemma getCurrentPrice_all_providers_none
    (st : DataValidator.LastValidPrices) (env : FetchEnv) (pair : String)
    (hc : env.cached = none) (h1 : env.coingecko = none) (h2 : env.binance = none)
    (h3 : env.freeApis = none) (h4 : env.yahoo = none) (h5 : env.alphaVantage = none) :
    getCurrentPrice st env pair =
      (if acceptPrice st pair (fallbackPrice pair env.nowSec) env.nowSec then
        some (fallbackPrice pair env.nowSec, "Fallback") else none) := by
  unfold getCurrentPrice
  rw [hc]
  unfold getCurrentPriceUncached providerAttempts
  cases hcr : env.isCrypto <;>
    simp [hcr, firstValidated, validateAndCachePrice, h1, h2, h3, h4, h5]

lemma periodMap_ge_24 (p : String) : 24 ≤ periodMap p := by
  unfold periodMap
  split_ifs <;> norm_num

lemma intervalHours_pos (i : String) : 0 < intervalHours i := by
  unfold intervalHours
  split_ifs <;> norm_num

lemma intervalHours_le_24 (i : String) : intervalHours i ≤ 24 := by
  unfold intervalHours
  split_ifs <;> norm_num

/-- Every period/interval combination yields at least one synthetic data
point: the point total is at least 24 and a candle covers at most 24
hours. -/
lemma pointsNeeded_pos (p i : String) : 0 < pointsNeeded p i := by
  unfold pointsNeeded
  have h1 := periodMap_ge_24 p
  have h2 := intervalHours_pos i
  have h3 := intervalHours_le_24 i
  have hq : (1:ℚ) ≤ (periodMap p : ℚ) / intervalHours i := by
    rw [le_div_iff₀ h2]
    have h4 : ((24:ℕ):ℚ) ≤ (periodMap p : ℚ) := by exact_mod_cast h1
    push_cast at h4 ⊢
    linarith
  have hf : (1:ℤ) ≤ ⌊(periodMap p : ℚ) / intervalHours i⌋ :=
    Int.le_floor.mpr (by exact_mod_cast hq)
  omega

lemma synthCloses_length (seed : ℕ) (base : ℚ) (n : ℕ) :
    (synthCloses seed base n).length = n := by
  induction n with
  | zero => rfl
  | succ k ih => simp [synthCloses, ih]

lemma genHistData_length (pair period interval : String) :
    (genHistData pair period interval).length = pointsNeeded period interval := by
  unfold genHistData
  simp [synthCloses_length]

lemma genHistData_ne_nil (pair period interval : String) :
    genHistData pair period interval ≠ [] := by
  intro h
  have hl := genHistData_length pair period interval
  rw [h] at hl
  have hp := pointsNeeded_pos period interval
  simp at hl
  omega

/-- On a cache miss with a working generator, `get_historical_data` returns
the synthetic series after the single step of generating it. -/
lemma getHistoricalData_synth (env : HistEnv) (pair period interval : String)
    (hc : env.cached = none) (hs : env.synthOk = true) :
    getHistoricalData env pair period interval =
      (some (genHistData pair period interval), [HistStep.synthTried]) := by
  unfold getHistoricalData
  rw [hc]
  simp only [hs, if_true]
  rw [if_neg (genHistData_ne_nil pair period interval)]

end DataFetcher

/-! The claims. -/

open DataValidator DataFetcher in
/-- C1: for every quote validated while a last-accepted quote for the same
pair is stored at a positive price, if the absolute fractional change from
that price exceeds twice the time-scaled maximum-change threshold (0.5% at
≤ 1 min, 1.5% at ≤ 5 min, 2.5% at ≤ 15 min, 5% at ≤ 1 h, 15% beyond), the
returned ValidationResult has `is_valid = false`. -/
theorem extreme_price_change_invalidates
    (st : LastValidPrices) (pair : String) (price : ℚ) (topt : Option ℕ) (now : ℕ)
    (lp : ℚ) (lastT : ℕ) (hst : st pair = some (lp, lastT)) (hlp : 0 < lp)
    (hpc : |price - lp| / lp >
      2 * getPriceChangeThreshold ((((topt.getD now : ℕ) : ℚ) - (lastT : ℚ)) / 60)) :
    (validatePriceData st pair price topt now).1.is_valid = false :=
  validatePriceData_extreme_invalid st pair price topt now lp lastT hst hlp hpc

open DataValidator in
/-- Witness for C1: EURUSD quoted at 1 thirty seconds after an accepted
1.1000 — a 9.09% move against a 0.5% threshold. -/
theorem extreme_price_change_invalidates_witness :
    (validatePriceData stLastHigh "EURUSD" 1 (some 1030) 1030).1.is_valid = false :=
  extreme_price_change_invalidates stLastHigh "EURUSD" 1 (some 1030) 1030 (11/10) 1000
    rfl (by norm_num)
    (by
      rw [show |(1:ℚ) - 11/10| = 1/10 by rw [abs_of_nonpos] <;> norm_num]
      norm_num [DataValidator.getPriceChangeThreshold])

set_option linter.unnecessarySeqFocus false in
/-- Counterexample to C2 as stated: a fusion call whose technical input has
`at_important_level = true` but an empty `important_levels` list is NOT
forced to SIGNIFICANT_LEVEL/90 — the Python guard is
`if at_important_level and important_levels:`, and the empty list is falsy,
so the combined HOLD signal with confidence 0 survives. -/
theorem important_level_override_requires_levels_cex :
    taCex.at_important_level = true ∧ taCex.important_levels = [] ∧
    (SignalGenerator.generateSignals "EURUSD" taCex faCex).signal.direction = "HOLD" ∧
    (SignalGenerator.generateSignals "EURUSD" taCex faCex).signal.confidence = 0 := by
  refine ⟨rfl, rfl, ?_, ?_⟩ <;>
    simp [taCex, faCex, SignalGenerator.generateSignals,
      SignalGenerator.calcTechnicalSignal, SignalGenerator.techDivByZero,
      SignalGenerator.techComponents, SignalGenerator.neutralTechSignal,
      SignalGenerator.calcFundamentalSignal, SignalGenerator.combineSignals,
      SignalGenerator.combinedConfidencePreClip, SignalGenerator.directionValue,
      SignalGenerator.round1, SignalGenerator.roundHalfEven,
      SignalGenerator.wTechnical, SignalGenerator.wFundamental] <;>
    norm_num

/-- C2 (amended): whenever the technical input has
`at_important_level = true` AND a non-empty `important_levels` list, the
fused signal is forced to direction SIGNIFICANT_LEVEL with confidence 90,
regardless of the computed combined scalar. -/
theorem important_level_override_forces_significant
    (pair : String) (ta : SignalGenerator.TechAnalysisIn)
    (fa : SignalGenerator.FundAnalysisIn)
    (h1 : ta.at_important_level = true) (h2 : ta.important_levels ≠ []) :
    (SignalGenerator.generateSignals pair ta fa).signal.direction = "SIGNIFICANT_LEVEL" ∧
    (SignalGenerator.generateSignals pair ta fa).signal.confidence = 90 := by
  have h3 : ta.important_levels.isEmpty = false := by
    cases h : ta.important_levels with
    | nil => exact absurd h h2
    | cons a l => simp
  simp [SignalGenerator.generateSignals, h1, h3]

/-- Witness for C2: with one important level recorded, the override fires. -/
theorem important_level_override_forces_significant_witness :
    (SignalGenerator.generateSignals "EURUSD" taImportant faCex).signal.direction =
      "SIGNIFICANT_LEVEL" ∧
    (SignalGenerator.generateSignals "EURUSD" taImportant faCex).signal.confidence = 90 :=
  important_level_override_forces_significant "EURUSD" taImportant faCex rfl
    (by decide)

open DataValidator DataFetcher in
/-- C3 (amended): when the cache is empty and every external provider fails
to supply a price, `get_current_price` returns normally (no exception can
escape the embedded total function): the synthesized fallback value tagged
"Fallback" when that value passes validation with confidence ≥ 70, and the
terminal no-data `none` — the only failure surfaced to the caller —
otherwise. -/
theorem current_price_degraded_path
    (st : LastValidPrices) (env : FetchEnv) (pair : String)
    (hc : env.cached = none) (h1 : env.coingecko = none) (h2 : env.binance = none)
    (h3 : env.freeApis = none) (h4 : env.yahoo = none) (h5 : env.alphaVantage = none) :
    getCurrentPrice st env pair =
      (if acceptPrice st pair (fallbackPrice pair env.nowSec) env.nowSec then
        some (fallbackPrice pair env.nowSec, "Fallback") else none) :=
  getCurrentPrice_all_providers_none st env pair hc h1 h2 h3 h4 h5

open DataValidator DataFetcher in
/-- Witness for C3: the environment in which every provider fails at
second 60. -/
theorem current_price_degraded_path_witness :
    getCurrentPrice stFar envAllFail "EURUSD" =
      (if acceptPrice stFar "EURUSD" (fallbackPrice "EURUSD" envAllFail.nowSec)
          envAllFail.nowSec then
        some (fallbackPrice "EURUSD" envAllFail.nowSec, "Fallback") else none) :=
  current_price_degraded_path stFar envAllFail "EURUSD" rfl rfl rfl rfl rfl rfl

open DataValidator DataFetcher in
/-- Counterexample to C3 as stated: with every provider failing and a last
accepted EURUSD quote of 1.3000 thirty seconds earlier, the synthesized
fallback (within 0.5% of 1.0950) is an extreme price change, fails
validation, and `get_current_price` returns `none` — NOT a value tagged
"Fallback". -/
theorem current_price_fallback_rejected_cex :
    (envAllFail.cached = none ∧ envAllFail.coingecko = none ∧
      envAllFail.binance = none ∧ envAllFail.freeApis = none ∧
      envAllFail.yahoo = none ∧ envAllFail.alphaVantage = none) ∧
    getCurrentPrice stFar envAllFail "EURUSD" = none := by
  refine ⟨⟨rfl, rfl, rfl, rfl, rfl, rfl⟩, ?_⟩
  have hb : basePrices "EURUSD" = some (219/200) := rfl
  obtain ⟨hlo, hhi⟩ := fallbackPrice_bounds "EURUSD" 60 (219/200) hb (by norm_num)
  have hvp : (validatePriceData stFar "EURUSD" (fallbackPrice "EURUSD" 60) none 60).1.is_valid
      = false := by
    apply validatePriceData_extreme_invalid stFar "EURUSD" (fallbackPrice "EURUSD" 60)
      none 60 (13/10) 30 rfl (by norm_num)
    have habs : |fallbackPrice "EURUSD" 60 - 13/10| = 13/10 - fallbackPrice "EURUSD" 60 := by
      rw [abs_of_nonpos (by linarith)]
      ring
    rw [habs]
    have hthr : getPriceChangeThreshold (((((none : Option ℕ).getD 60 : ℕ) : ℚ) - ((30:ℕ) : ℚ)) / 60)
        = 1/200 := by
      norm_num [getPriceChangeThreshold]
    rw [hthr]
    rw [gt_iff_lt, lt_div_iff₀ (by norm_num : (0:ℚ) < 13/10)]
    linarith
  have hacc : acceptPrice stFar "EURUSD" (fallbackPrice "EURUSD" 60) 60 = false := by
    simp only [acceptPrice]
    rw [hvp]
    rfl
  rw [getCurrentPrice_all_providers_none stFar envAllFail "EURUSD" rfl rfl rfl rfl rfl rfl]
  simp only [envAllFail]
  rw [hacc]
  simp

open DataFetcher in
/-- Counterexample to C4 as stated: on a cache miss with a reachable,
non-failing Yahoo Finance provider, `get_historical_data` returns the
synthetic series anyway — its trace is the single synthetic-generation
step, and the provider is never consulted, so the synthetic series is NOT
produced only after all real providers have failed. -/
theorem historical_data_skips_providers_cex :
    histEnvProviders.yahooData ≠ none ∧ histEnvProviders.rateOk = true ∧
    (getHistoricalData histEnvProviders "EURUSD" "1mo" "1h").1 =
      some (genHistData "EURUSD" "1mo" "1h") ∧
    (getHistoricalData histEnvProviders "EURUSD" "1mo" "1h").2 = [HistStep.synthTried] ∧
    HistStep.yahooTried ∉ (getHistoricalData histEnvProviders "EURUSD" "1mo" "1h").2 := by
  have h := getHistoricalData_synth histEnvProviders "EURUSD" "1mo" "1h" rfl rfl
  refine ⟨by simp [histEnvProviders], rfl, ?_, ?_, ?_⟩
  · rw [h]
  · rw [h]
  · rw [h]
    decide

open DataFetcher in
/-- C4 (amended): on a cache miss with a working generator, acquisition
returns the deterministic synthetic series as the primary source (its
trace is exactly the synthetic-generation step, so no provider is
consulted and no series-level validation runs), and the series is
length-capped at 100 points; the real provider chain is reached only when
synthetic generation fails. -/
theorem historical_data_synthetic_primary (env : HistEnv) (pair period interval : String)
    (hc : env.cached = none) (hs : env.synthOk = true) :
    getHistoricalData env pair period interval =
      (some (genHistData pair period interval), [HistStep.synthTried]) ∧
    (genHistData pair period interval).length ≤ 100 :=
  ⟨getHistoricalData_synth env pair period interval hc hs,
   by rw [genHistData_length]; exact min_le_right _ _⟩

open DataFetcher in
/-- Witness for C4: the cache-miss environment. -/
theorem historical_data_synthetic_primary_witness :
    getHistoricalData histEnvNoProviders "EURUSD" "1d" "1h" =
      (some (genHistData "EURUSD" "1d" "1h"), [HistStep.synthTried]) ∧
    (genHistData "EURUSD" "1d" "1h").length ≤ 100 :=
  historical_data_synthetic_primary histEnvNoProviders "EURUSD" "1d" "1h" rfl rfl

/-- C5: for every pair and minute bucket, two computations of the
synthetic fallback price at any two instants falling in the same
minute-granularity time bucket return the identical value — the generator
is seeded from a digest of the pair and the time bucket alone. -/
theorem fallback_price_bucket_deterministic (pair : String) (t1 t2 : ℕ)
    (h : t1 / 60 = t2 / 60) :
    DataFetcher.fallbackPrice pair t1 = DataFetcher.fallbackPrice pair t2 := by
  unfold DataFetcher.fallbackPrice
  rw [h]

/-- Witness for C5: seconds 60 and 119 share minute bucket 1. -/
theorem fallback_price_bucket_deterministic_witness :
    DataFetcher.fallbackPrice "EURUSD" 60 = DataFetcher.fallbackPrice "EURUSD" 119 :=
  fallback_price_bucket_deterministic "EURUSD" 60 119 (by decide)

/-- C6: while the governor's emergency mode is in the TRIPPED state (the
cooldown deadline has not elapsed), `canRequest` returns false for every
provider, whatever the per-provider and global quota counters hold. -/
theorem can_request_false_while_tripped (g : RateLimiter.Governor) (api : String)
    (now u : ℚ) (hu : g.emergencyUntil = some u) (hn : now < u) :
    RateLimiter.canRequest g api now = false := by
  unfold RateLimiter.canRequest RateLimiter.emergencyTripped
  rw [hu]
  simp [hn]

/-- Witness for C6: at second 50 the tripped governor denies a provider
whose quotas are untouched. -/
theorem can_request_false_while_tripped_witness :
    RateLimiter.canRequest trippedGovernor "yahoo_finance" 50 = false :=
  can_request_false_while_tripped trippedGovernor "yahoo_finance" 50 100 rfl
    (by norm_num)

/-- C7: the spec expects the RSI of a strictly increasing close series to
trend toward 100 (ending above the neutral 50); the code instead returns 0
at every index of the strictly increasing series [1, 2, 3, 4, 5] — the
zero average loss is replaced by `+inf`, so `rs = gain / inf = 0` and
`rsi = 100 - 100 / 1 = 0` — where the intent documented by the sibling
no-dependency implementation (whose `calculate_rsi` returns 100.0 when the
average loss is 0) puts 100. -/
theorem rsi_strictly_increasing_all_zero :
    TechnicalAnalysis.calculateRsi [1, 2, 3, 4, 5] 14 = [0, 0, 0, 0, 0] := by
  simp [TechnicalAnalysis.calculateRsi, TechnicalAnalysis.gainsList,
    TechnicalAnalysis.lossesList, TechnicalAnalysis.pairDiffs,
    TechnicalAnalysis.rollingMeanAt, List.range_succ]
  norm_num

/-- Counterexample to C8 as stated: with agreeing non-HOLD directions and
component confidences 100 (technical) and 0 (fundamental), the combined
confidence before clipping is 100·0.6 + 0·0.4 + 20 = 80 < 100: the
agreement bonus cannot lift the weighted average above a component that is
more than 100/3 points ahead of the other. -/
theorem combined_confidence_below_component_cex :
    (c8tech.direction = c8fund.direction ∧ c8tech.direction ≠ "HOLD" ∧
      c8fund.direction ≠ "HOLD") ∧
    SignalGenerator.combinedConfidencePreClip c8tech c8fund < c8tech.confidence := by
  constructor
  · exact ⟨rfl, by decide, by decide⟩
  · simp [SignalGenerator.combinedConfidencePreClip, c8tech, c8fund,
      SignalGenerator.wTechnical, SignalGenerator.wFundamental]
    norm_num

/-- C8 (amended): when the technical and fundamental directions agree and
are non-HOLD, the combined confidence before clipping is at least the
smaller component confidence plus the 20-point agreement bonus, and it is
at least each of the two component confidences provided they differ by at
most 100/3 points (the counterexample shows some bound is needed). -/
theorem combined_confidence_agreement_bonus (t : SignalGenerator.TechSignal)
    (f : SignalGenerator.FundSignal)
    (hd : t.direction = f.direction) (hh : t.direction ≠ "HOLD") :
    SignalGenerator.combinedConfidencePreClip t f ≥
      min t.confidence f.confidence + 20 ∧
    (|t.confidence - f.confidence| ≤ 100/3 →
      SignalGenerator.combinedConfidencePreClip t f ≥
        max t.confidence f.confidence) := by
  have hf : f.direction ≠ "HOLD" := hd ▸ hh
  unfold SignalGenerator.combinedConfidencePreClip
  rw [if_pos ⟨hd, hh, hf⟩]
  unfold SignalGenerator.wTechnical SignalGenerator.wFundamental
  constructor
  · rcases le_total t.confidence f.confidence with h | h
    · rw [min_eq_left h]
      linarith
    · rw [min_eq_right h]
      linarith
  · intro hdiff
    rw [abs_le] at hdiff
    rcases le_total t.confidence f.confidence with h | h
    · rw [max_eq_right h]
      linarith
    · rw [max_eq_left h]
      linarith

/-- Witness for C8: at confidences 80/60 (difference 20 ≤ 100/3) the
combined pre-clip confidence dominates both components. -/
theorem combined_confidence_agreement_bonus_witness :
    SignalGenerator.combinedConfidencePreClip c8techW c8fundW ≥
      min c8techW.confidence c8fundW.confidence + 20 ∧
    SignalGenerator.combinedConfidencePreClip c8techW c8fundW ≥
      max c8techW.confidence c8fundW.confidence :=
  ⟨(combined_confidence_agreement_bonus c8techW c8fundW rfl (by decide)).1,
   (combined_confidence_agreement_bonus c8techW c8fundW rfl (by decide)).2
     (abs_le.mpr (by norm_num [c8techW, c8fundW]))⟩

open DataValidator in
/-- C9: `validate_price_data` is total — the embedding returns a
ValidationResult for every state, pair, price and optional timestamp — and
whenever the checks raise internally (the `Except.error` of the embedded
core, reachable through the division by a stored zero price), the returned
result has `is_valid = false` and `confidence_score = 0`. -/
theorem validate_price_data_exception_invalid
    (st : LastValidPrices) (pair : String) (price : ℚ) (topt : Option ℕ) (now : ℕ)
    (h : (validateChecksCore st pair price topt now).isOk = false) :
    (validatePriceData st pair price topt now).1.is_valid = false ∧
    (validatePriceData st pair price topt now).1.confidence_score = 0 := by
  unfold validatePriceData
  cases hc : validateChecksCore st pair price topt now with
  | ok rs =>
    rw [hc] at h
    simp [Except.isOk, Except.toBool] at h
  | error rp => exact ⟨rfl, rfl⟩

open DataValidator in
/-- Witness for C9: a stored last price of 0 makes the Python price-change
division raise; the except clause yields invalid/0. -/
theorem validate_price_data_exception_invalid_witness :
    (validatePriceData stZeroLast "EURUSD" 1 none 0).1.is_valid = false ∧
    (validatePriceData stZeroLast "EURUSD" 1 none 0).1.confidence_score = 0 :=
  validate_price_data_exception_invalid stZeroLast "EURUSD" 1 none 0
    (by simp [DataValidator.validateChecksCore, DataValidator.validatePriceChange,
      stZeroLast, Except.isOk, Except.toBool])

/-- C10: for every pair symbol absent from the configured base-price
table, the synthetic fallback price is within ±0.5% of the default base
price 1.0 — so a completely unknown symbol yields a price near 1.0 on the
fallback path instead of failing. -/
theorem fallback_price_unknown_pair_near_one (pair : String) (t : ℕ)
    (h : DataFetcher.basePrices pair = none) :
    |DataFetcher.fallbackPrice pair t - 1| ≤ 1/200 := by
  unfold DataFetcher.fallbackPrice
  rw [h]
  have h0 := DataFetcher.unitFromSeed_nonneg (DataFetcher.fallbackSeed pair (t / 60))
  have h1 := DataFetcher.unitFromSeed_le_one (DataFetcher.fallbackSeed pair (t / 60))
  rw [abs_le]
  constructor <;> simp [Option.getD] <;> linarith

/-- Witness for C10: the unknown symbol ZZZUSD at time 0. -/
theorem fallback_price_unknown_pair_near_one_witness :
    |DataFetcher.fallbackPrice "ZZZUSD" 0 - 1| ≤ 1/200 :=
  fallback_price_unknown_pair_near_one "ZZZUSD" 0 (by decide)
